import Mathlib

/-! Shallow embedding, in Lean 4, of the dispatch and resilient-call core of the
`multipurpose_gpt` service: the filename classifier (`app/utils/file_utils.py`),
the retrying model caller (`app/services/gpt_service.py`), the model enum
(`app/models/enums.py`) and the `/ask` dispatcher (`app/api/routes.py`),
together with theorems settling the specification's claims about them. -/

namespace MPGpt

/-! ## Embedding of `app/utils/file_utils.py` -/

/-- ASCII lowercasing of one character: the action of Python `str.lower` on the
ASCII range, which is the only range exercised by extensions and filenames here. -/
def lowerChar (c : Char) : Char :=
  if 65 ≤ c.toNat ∧ c.toNat ≤ 90 then Char.ofNat (c.toNat + 32) else c

/-- Python `s.lower()`. -/
def pyLower (s : String) : String := ⟨s.data.map lowerChar⟩

/-- Python `s.endswith(t)`. -/
def pyEndsWith (s t : String) : Bool := t.data.isSuffixOf s.data

def VIDEO_EXTS : List String :=
  ["mp4", "avi", "mov", "wmv", "mpeg", "mpg", "mkv", "flv", "webm", "3gp",
   "mts", "m2ts", "vob", "rmvb"]

def TEXT_EXTS : List String :=
  ["txt", "csv", "tsv", "log", "xml", "json", "yaml", "ini",
   "xls", "xlsx", "ods", "doc", "docx", "odt", "rtf", "ppt", "pptx", "odp",
   "pdf", "epub", "mobi", "azw", "djvu"]

def AUDIO_EXTS : List String :=
  ["mp3", "aac", "wav", "wma", "ogg", "flac", "m4a", "aiff", "opus", "alac", "amr"]

def IMAGE_EXTS : List String :=
  ["jpg", "jpeg", "png", "gif", "bmp", "tiff", "webp", "heic", "svg", "ico",
   "raw", "nef", "cr2", "psd", "ai", "eps"]

def ARCHIVE_EXTS : List String :=
  ["zip", "rar", "7z", "tar", "gz", "bz2", "xz", "zst", "lzma", "iso"]

/-- The dict `CATEGORY_BY_EXT`, built in the source as a union of five
comprehensions over the extension sets.  The five key sets are pairwise
disjoint, so the union order is immaterial and a lookup is an if-chain. -/
def CATEGORY_BY_EXT (ext : String) : Option String :=
  if VIDEO_EXTS.contains ext then some "video"
  else if TEXT_EXTS.contains ext then some "text"
  else if AUDIO_EXTS.contains ext then some "audio"
  else if IMAGE_EXTS.contains ext then some "image"
  else if ARCHIVE_EXTS.contains ext then some "archive"
  else none

/-- `COMPOUND_ARCHIVE_EXTS` is a Python set; none of its three members is a
suffix of another, so the (arbitrary) iteration order never affects the result
and a fixed list is a faithful model. -/
def COMPOUND_ARCHIVE_EXTS : List String := ["tar.gz", "tar.bz2", "tar.xz"]

/-- Return value of `extract_ext_category`.  The Python function can return
pairs of three different shapes; they are enumerated here.  `extNonePair ext`
records the value `(ext, (None, None))` produced by the last line,
`return ext, cat if cat else (None, None)`: the conditional expression binds
only to the second tuple slot, so when `cat` is falsy the second component is
itself the pair `(None, None)` rather than the whole return value. -/
inductive ExtCat where
  | noneNone
  | extCat (ext : String) (cat : String)
  | extNonePair (ext : String)
deriving DecidableEq

/-- `extract_ext_category` from `app/utils/file_utils.py` (for a string
argument, `filename or ""` is the identity: the empty string is its own
fallback).  `rsplit(".", 1)[-1]` is the segment after the last dot, or the
whole name when no dot occurs; the dotless case is guarded out before it. -/
def extract_ext_category (filename : String) : ExtCat :=
  let name := pyLower filename
  match COMPOUND_ARCHIVE_EXTS.find? (fun cext => pyEndsWith name ("." ++ cext)) with
  | some cext => .extCat cext "archive"
  | none =>
    if ¬ name.data.contains '.' then .noneNone
    else
      let ext : String := ⟨(name.data.reverse.takeWhile (fun c => c ≠ '.')).reverse⟩
      match CATEGORY_BY_EXT ext with
      | some cat => .extCat ext cat
      | none => .extNonePair ext

/-! ## Embedding of `app/services/gpt_service.py` -/

/-- The observable shape of an OpenAI SDK exception, as far as
`_status_from_exc` and `_is_retryable` inspect it: its membership in the
`APIConnectionError` / `RateLimitError` / `APIStatusError` classes, the
`status_code` attribute of an `APIStatusError` (`none` models both a missing
attribute and a value `int(...)` rejects), and the optional `status` attribute
of other `OpenAIError` derivatives. -/
structure OpenAIException where
  isAPIConnectionError : Bool
  isRateLimitError : Bool
  isAPIStatusError : Bool
  statusCode : Option Int
  statusAttr : Option Int
deriving DecidableEq

/-- `_status_from_exc` (`gpt_service.py` lines 36-48 and the identical inline
copy at lines 94-100): the `status_code` of an `APIStatusError`, else the
`status` attribute when present. -/
def status_from_exc (e : OpenAIException) : Option Int :=
  if e.isAPIStatusError then e.statusCode else e.statusAttr

/-- `_is_retryable` (`gpt_service.py` lines 50-66 and the identical inline copy
at lines 102-108). -/
def is_retryable (e : OpenAIException) : Bool :=
  if e.isAPIConnectionError || e.isRateLimitError then true
  else
    match status_from_exc e with
    | none => false
    | some s => s == 429 || (decide (500 ≤ s) && decide (s ≤ 599))

/-- Outcome of a call to `ask_gpt`: the returned dict (abstracted to the
backend's success payload), the `RuntimeError` raised on exhaustion or a
non-retryable failure — carrying the `attempt` counter interpolated into the
message `OpenAI call failed after ... retries` and the wrapped underlying
exception — or the `ValueError` raised when neither a query nor a file is
supplied. -/
inductive AskOutcome (α : Type) where
  | ok (v : α)
  | runtimeError (retries : Nat) (cause : OpenAIException)
  | valueError
deriving DecidableEq

/-- The `finally` block of the retry loop (`gpt_service.py` lines 183-192),
run at the end of every loop iteration and on every exit path: when an
uploaded-file id is live and deletion is enabled, one `files.delete` call is
issued; on success the id is cleared, while a raised deletion error is
swallowed and leaves the id in place.  `deleteOk k` tells whether the k-th
delete invocation succeeds; the pair returned is the new id state and the new
count of delete invocations. -/
def cleanup (deleteOk : Nat → Bool) (delete_uploaded_file : Bool)
    (uploadedFileId : Option Unit) (deletes : Nat) : Option Unit × Nat :=
  match uploadedFileId with
  | some fid =>
    if delete_uploaded_file then
      if deleteOk deletes then (none, deletes + 1) else (some fid, deletes + 1)
    else (some fid, deletes)
  | none => (none, deletes)

/-- The retry loop of `ask_gpt` (`gpt_service.py` lines 139-192).  `backend k`
is the outcome of the k-th `responses.create` request; the sleep is invisible
to the loop's state.  The value returned is the call outcome together with the
total number of backend requests issued and the total number of
`files.delete` invocations. -/
def ask_gpt_loop {α : Type} (backend : Nat → Except OpenAIException α)
    (deleteOk : Nat → Bool) (max_retries : Nat) (delete_uploaded_file : Bool)
    (attempt : Nat) (uploadedFileId : Option Unit) (requests deletes : Nat) :
    AskOutcome α × Nat × Nat :=
  match backend requests with
  | .ok v =>
    let c := cleanup deleteOk delete_uploaded_file uploadedFileId deletes
    (.ok v, requests + 1, c.2)
  | .error e =>
    if h : is_retryable e = true ∧ attempt < max_retries then
      let c := cleanup deleteOk delete_uploaded_file uploadedFileId deletes
      ask_gpt_loop backend deleteOk max_retries delete_uploaded_file
        (attempt + 1) c.1 (requests + 1) c.2
    else
      let c := cleanup deleteOk delete_uploaded_file uploadedFileId deletes
      (.runtimeError attempt e, requests + 1, c.2)
termination_by max_retries - attempt
decreasing_by omega

/-- `ask_gpt` (`gpt_service.py` lines 68-192), abstracted over the backend's
request and delete behaviour.  `hasQuery` is the truthiness of `query`,
`hasFile` that of `file_bytes is not None and file_filename`; when a file is
present it is staged once up front and its id handed to the retry loop.  When
neither input is present no content part exists and `ValueError` is raised
before any request. -/
def ask_gpt {α : Type} (backend : Nat → Except OpenAIException α)
    (deleteOk : Nat → Bool) (max_retries : Nat)
    (hasQuery hasFile delete_uploaded_file : Bool) :
    AskOutcome α × Nat × Nat :=
  let uploadedFileId : Option Unit := if hasFile then some () else none
  if hasQuery = false ∧ hasFile = false then (.valueError, 0, 0)
  else ask_gpt_loop backend deleteOk max_retries delete_uploaded_file
    0 uploadedFileId 0 0

/-- The backoff base of `ask_gpt` (`gpt_service.py` line 177), over exact
rationals: `base = min(max_backoff, initial_backoff * 2 ** attempt)`. -/
def backoff_base (initial_backoff max_backoff : ℚ) (attempt : Nat) : ℚ :=
  min max_backoff (initial_backoff * 2 ^ attempt)

/-- The slept delay (`gpt_service.py` lines 178-179):
`delay = max(0.1, base * factor)` with `factor = 1.0 + random.uniform(-jitter, jitter)`
modelled by an arbitrary draw `u` satisfying `-jitter ≤ u ≤ jitter`. -/
def backoff_delay (initial_backoff max_backoff : ℚ) (attempt : Nat) (u : ℚ) : ℚ :=
  max (1/10) (backoff_base initial_backoff max_backoff attempt * (1 + u))

/-! ## Embedding of `app/models/enums.py` and `app/api/routes.py` -/

/-- The `ModelName` enum (`app/models/enums.py` lines 5-9). -/
inductive ModelName where
  | gpt_4o_mini
  | gpt_4o
  | gpt_5_mini
  | gpt_5
deriving DecidableEq

/-- The string value of each `ModelName` member. -/
def ModelName.value : ModelName → String
  | .gpt_4o_mini => "gpt-4o-mini"
  | .gpt_4o => "gpt-4o"
  | .gpt_5_mini => "gpt-5-mini"
  | .gpt_5 => "gpt-5"

/-- Python `s.startswith(t)`. -/
def pyStartsWith (s t : String) : Bool := t.data.isPrefixOf s.data

/-- `VISION_MODELS` (`routes.py` line 19); the source value is a set and the
`any` below is order-insensitive, so a fixed list is a faithful model. -/
def VISION_MODELS : List String := ["gpt-4o", "gpt-5", "gpt-4o-mini"]

/-- `_is_vision_model` (`routes.py` lines 21-23). -/
def is_vision_model (name : String) : Bool :=
  VISION_MODELS.any fun m => pyStartsWith name m

/-- Python `str.strip()` on the whitespace characters Lean knows; the filenames
and queries of the claims contain none of the exotic Python-only blanks. -/
def pyStrip (s : String) : String :=
  ⟨((s.data.dropWhile Char.isWhitespace).reverse.dropWhile Char.isWhitespace).reverse⟩

/-- `_normalise_query` (`routes.py` lines 35-45): trim, then the empty string
and the Swagger placeholder "string" become `None`. -/
def normalise_query : Option String → Option String
  | none => none
  | some v =>
    let w := pyStrip v
    if w == "" || pyLower w == "string" then none else some w

/-- The value bound to `category` by `ext, category = extract_ext_category(...)`
(`routes.py` line 91) or by its initialisation to `None` (line 85): `None`, a
category string, or — through the classifier's nested return — the pair
`(None, None)`. -/
inductive CatVal where
  | pyNone
  | str (s : String)
  | nonePair
deriving DecidableEq

/-- First component of the classifier's returned pair (the `ext` binding). -/
def extFst : ExtCat → Option String
  | .noneNone => none
  | .extCat e _ => some e
  | .extNonePair e => some e

/-- Second component of the classifier's returned pair (the `category`
binding). -/
def extSnd : ExtCat → CatVal
  | .noneNone => .pyNone
  | .extCat _ c => .str c
  | .extNonePair _ => .nonePair

/-- Python falsiness of an optional string: `None` and `""` are falsy. -/
def pyFalsy : Option String → Bool
  | none => true
  | some s => s == ""

/-- Keyword parameters accepted by `ask_gpt`, from its signature
(`gpt_service.py` lines 68-81). -/
def ask_gpt_params : List String :=
  ["query", "file_bytes", "file_filename", "prompt", "model",
   "max_retries", "initial_backoff", "max_backoff", "jitter",
   "delete_uploaded_file"]

/-- Keyword arguments the dispatcher passes to `ask_gpt` (`routes.py` lines
172-176).  Python raises `TypeError` at the call site when one of them is not
a parameter of the callee. -/
def ask_gpt_call_kwargs : List String := ["query", "prompt", "summary_model"]

/-- How a request leaves the `ask` endpoint: an `HTTPException` raised before
the `try` block (client-input rejection), an invocation of one of the four
pipelines, a reached `ask_gpt` call (binding its keywords successfully), or an
HTTP 500 produced by the blanket `except Exception` handler around the `try`
body. -/
inductive Dispatch where
  | httpError (status : Nat) (detail : String)
  | videoCall
  | audioCall
  | docCall
  | imageCall
  | gptCall
  | serverError (detail : String)
deriving DecidableEq

/-- The `try` body of `ask` (`routes.py` lines 107-180): dispatch on the
truthiness of `file_bytes` and equality of `category` with each pipeline name.
The vision-capability `HTTPException` (line 163) is raised inside the `try`,
so the blanket handler converts it to a 500; the final
`ask_gpt(query=..., prompt=..., summary_model=...)` call binds a keyword
`ask_gpt` does not accept, so it raises `TypeError`, likewise converted to a
500 before any backend call is made. -/
def ask_try (fileBytesTruthy : Bool) (category : CatVal) (model : ModelName) :
    Dispatch :=
  if fileBytesTruthy && (category == .str "video") then .videoCall
  else if fileBytesTruthy && (category == .str "audio") then .audioCall
  else if fileBytesTruthy && (category == .str "text") then .docCall
  else if fileBytesTruthy && (category == .str "image") then
    if ¬ is_vision_model model.value then
      .serverError "422: Model is not vision-capable. Select a vision model (e.g., gpt-4o or gpt-5)."
    else .imageCall
  else if ask_gpt_call_kwargs.all (fun k => ask_gpt_params.contains k) then .gptCall
  else .serverError "ask_gpt() got an unexpected keyword argument: summary_model"

/-- The `/ask` endpoint (`routes.py` lines 47-180) on an already-parsed form:
`file` is `None` or the filename of a genuine upload whose bytes have
truthiness `fileBytesTruthy` (the Swagger placeholder normalisation of `file`
at lines 70-71 maps its oddities into this shape).  Prompt selection (lines
99-101) only chooses the prompt text forwarded to the pipelines and is elided
from the outcome. -/
def ask (query : Option String) (model : ModelName) (file : Option String)
    (fileBytesTruthy : Bool) : Dispatch :=
  let q := normalise_query query
  if pyFalsy q && file.isNone then
    .httpError 422 "Provide at least query or file."
  else if pyEndsWith model.value "-transcribe" then
    .httpError 422 "Selected model is a speech-to-text model. Choose from the models provided."
  else
    match file with
    | some filename =>
      let r := extract_ext_category filename
      if pyFalsy (extFst r) then
        .httpError 422 "Unsupported file type. Allowed: video, audio, text, image, archive."
      else ask_try fileBytesTruthy (extSnd r) model
    | none => ask_try false .pyNone model

/-! ## Concrete witnesses -/

/-- A rate-limit exception (in the SDK, `RateLimitError` is an
`APIStatusError` with status 429). -/
def rlExc : OpenAIException :=
  { isAPIConnectionError := false, isRateLimitError := true,
    isAPIStatusError := true, statusCode := some 429, statusAttr := none }

/-- A non-retryable exception: an `APIStatusError` with status 400. -/
def fatalExc : OpenAIException :=
  { isAPIConnectionError := false, isRateLimitError := false,
    isAPIStatusError := true, statusCode := some 400, statusAttr := none }

/-- A backend that rate-limits the first two requests, then succeeds. -/
def rlBackend : Nat → Except OpenAIException Nat :=
  fun i => if i < 2 then .error rlExc else .ok 7

/-- A backend that always fails with a non-retryable error. -/
def fatalBackend : Nat → Except OpenAIException Nat :=
  fun _ => .error fatalExc

/-! ## Helper lemmas -/

theorem lowerChar_idem (c : Char) : lowerChar (lowerChar c) = lowerChar c := by
  unfold lowerChar
  by_cases h : 65 ≤ c.toNat ∧ c.toNat ≤ 90
  · simp only [if_pos h]
    obtain ⟨h1, h2⟩ := h
    set n := c.toNat with hn
    interval_cases n <;> decide
  · simp only [if_neg h]

theorem pyLower_idem (s : String) : pyLower (pyLower s) = pyLower s := by
  show (⟨((s.data.map lowerChar).map lowerChar : List Char)⟩ : String) = _
  rw [List.map_map]
  congr 1
  exact List.map_congr_left fun c _ => lowerChar_idem c

theorem rate_limit_retryable {e : OpenAIException} (h : e.isRateLimitError = true) :
    is_retryable e = true := by
  simp [is_retryable, h]

/-- With no live uploaded-file id, the retry loop never touches the delete
interface: the deletes counter is returned unchanged. -/
theorem loop_deletes_none {α : Type} (backend : Nat → Except OpenAIException α)
    (dOk : Nat → Bool) (mr : Nat) (dU : Bool) :
    ∀ fuel attempt requests deletes, mr - attempt ≤ fuel →
      (ask_gpt_loop backend dOk mr dU attempt none requests deletes).2.2 = deletes := by
  intro fuel
  induction fuel with
  | zero =>
    intro attempt requests deletes hf
    rw [ask_gpt_loop.eq_def]
    split
    · simp [cleanup]
    · rw [dif_neg fun hcon => absurd hcon.2 (by omega)]
      simp [cleanup]
  | succ n ih =>
    intro attempt requests deletes hf
    rw [ask_gpt_loop.eq_def]
    split
    · simp [cleanup]
    · rename_i e heq
      by_cases hc : is_retryable e = true ∧ attempt < mr
      · rw [dif_pos hc]
        simp only [cleanup]
        exact ih (attempt + 1) (requests + 1) deletes (by omega)
      · rw [dif_neg hc]
        simp [cleanup]

/-- The outcome component of the retry loop depends only on the backend, the
attempt counter, the retry ceiling and the request counter — not on the delete
interface, the delete flag, the live id or the delete count. -/
theorem loop_result_indep {α : Type} (backend : Nat → Except OpenAIException α)
    (mr : Nat) :
    ∀ fuel attempt requests, mr - attempt ≤ fuel →
      ∀ dOk₁ dOk₂ : Nat → Bool, ∀ dU₁ dU₂ : Bool,
      ∀ uid₁ uid₂ : Option Unit, ∀ del₁ del₂ : Nat,
      (ask_gpt_loop backend dOk₁ mr dU₁ attempt uid₁ requests del₁).1
        = (ask_gpt_loop backend dOk₂ mr dU₂ attempt uid₂ requests del₂).1 := by
  intro fuel
  induction fuel with
  | zero =>
    intro attempt requests hf dOk₁ dOk₂ dU₁ dU₂ uid₁ uid₂ del₁ del₂
    conv_lhs => rw [ask_gpt_loop.eq_def]
    conv_rhs => rw [ask_gpt_loop.eq_def]
    rcases hbe : backend requests with e | v
    · simp only [hbe]
      rw [dif_neg fun hcon => absurd hcon.2 (by omega),
        dif_neg fun hcon => absurd hcon.2 (by omega)]
    · simp only [hbe]
  | succ n ih =>
    intro attempt requests hf dOk₁ dOk₂ dU₁ dU₂ uid₁ uid₂ del₁ del₂
    conv_lhs => rw [ask_gpt_loop.eq_def]
    conv_rhs => rw [ask_gpt_loop.eq_def]
    rcases hbe : backend requests with e | v
    · simp only [hbe]
      by_cases hc : is_retryable e = true ∧ attempt < mr
      · rw [dif_pos hc, dif_pos hc]
        exact ih (attempt + 1) (requests + 1) (by omega) dOk₁ dOk₂ dU₁ dU₂ _ _ _ _
      · rw [dif_neg hc, dif_neg hc]
    · simp only [hbe]

/-- With a live id, enabled deletion and a delete interface that succeeds, the
retry loop deletes exactly once: the first iteration's `finally` block deletes
and clears the id, after which `loop_deletes_none` applies. -/
theorem loop_deletes_some_once {α : Type} (backend : Nat → Except OpenAIException α)
    (mr : Nat) (attempt requests deletes : Nat) :
    (ask_gpt_loop backend (fun _ => true) mr true attempt (some ()) requests
        deletes).2.2 = deletes + 1 := by
  rw [ask_gpt_loop.eq_def]
  rcases hbe : backend requests with e | v
  · simp only [hbe]
    by_cases hc : is_retryable e = true ∧ attempt < mr
    · rw [dif_pos hc]
      simp only [cleanup]
      exact loop_deletes_none backend (fun _ => true) mr true (mr - (attempt + 1))
        (attempt + 1) (requests + 1) (deletes + 1) le_rfl
    · rw [dif_neg hc]
      simp [cleanup]
  · simp [hbe, cleanup]

/-- A backend that rate-limits its first `N` requests (counted from the current
request counter) and then succeeds drives the retry loop, with no live id, to
the success result after exactly `N + 1` requests, provided the attempt budget
admits `N` retries. -/
theorem loop_rate_limit {α : Type} (backend : Nat → Except OpenAIException α)
    (dOk : Nat → Bool) (mr : Nat) (dU : Bool) (v : α) :
    ∀ N attempt requests deletes,
      (∀ i, i < N → ∃ e, backend (requests + i) = .error e ∧ e.isRateLimitError = true) →
      backend (requests + N) = .ok v →
      attempt + N ≤ mr →
      ask_gpt_loop backend dOk mr dU attempt none requests deletes
        = (.ok v, requests + N + 1, deletes) := by
  intro N
  induction N with
  | zero =>
    intro attempt requests deletes hfail hsucc hmax
    have hs : backend requests = .ok v := by simpa using hsucc
    rw [ask_gpt_loop.eq_def, hs]
    simp [cleanup]
  | succ n ih =>
    intro attempt requests deletes hfail hsucc hmax
    obtain ⟨e, he, hrl⟩ := hfail 0 (Nat.succ_pos n)
    have he' : backend requests = .error e := by simpa using he
    rw [ask_gpt_loop.eq_def]
    simp only [he']
    rw [dif_pos ⟨rate_limit_retryable hrl, by omega⟩]
    simp only [cleanup]
    have hfail' : ∀ i, i < n →
        ∃ e, backend (requests + 1 + i) = .error e ∧ e.isRateLimitError = true := by
      intro i hi
      obtain ⟨e', he'', hrl'⟩ := hfail (i + 1) (by omega)
      exact ⟨e', by rw [show requests + 1 + i = requests + (i + 1) by omega]; exact he'', hrl'⟩
    have hsucc' : backend (requests + 1 + n) = .ok v := by
      rw [show requests + 1 + n = requests + (n + 1) by omega]; exact hsucc
    rw [ih (attempt + 1) (requests + 1) deletes hfail' hsucc' (by omega)]
    simp only [Prod.mk.injEq, true_and, and_true]
    omega

/-! ## Claim theorems -/

/-- Claim C9: every filename with a recognized single or compound extension is
classified deterministically and case-insensitively, with compound archive
suffixes checked before the final dot-delimited segment ("Report.PDF" maps to
the text/document category, "archive.tar.gz" to archive with the compound
extension "tar.gz" rather than "gz", "clip.mp4" to video), and classification
is invariant under lowercasing the filename. -/
theorem extract_ext_category_recognised :
    (∀ f : String, extract_ext_category (pyLower f) = extract_ext_category f) ∧
    extract_ext_category "Report.PDF" = .extCat "pdf" "text" ∧
    extract_ext_category "archive.tar.gz" = .extCat "tar.gz" "archive" ∧
    extract_ext_category "clip.mp4" = .extCat "mp4" "video" := by
  refine ⟨fun f => ?_, by decide, by decide, by decide⟩
  unfold extract_ext_category
  rw [pyLower_idem]

/-- Claim C6 (code-bug evidence): a filename with no dot yields `(None, None)`
as claimed, but a filename with an unrecognized extension does not: line 33,
`return ext, cat if cat else (None, None)`, keeps the extension in the first
slot and puts the pair `(None, None)` in the second, so "notes.xyz" yields
`("xyz", (None, None))` instead of the `(None, None)` promised by the claim
and by the function's own return-type annotation `tuple[str | None, str | None]`. -/
theorem extract_ext_category_unknown_ext_nested_pair :
    extract_ext_category "notes" = .noneNone ∧
    extract_ext_category "notes.xyz" = .extNonePair "xyz" ∧
    extract_ext_category "notes.xyz" ≠ .noneNone := by decide

/-- Claim C3: the retry-classification predicate holds exactly for
network/connection errors, rate-limit errors, and errors carrying an HTTP
status equal to 429 or lying in the range 500 to 599 inclusive. -/
theorem is_retryable_iff (e : OpenAIException) :
    is_retryable e = true ↔
      e.isAPIConnectionError = true ∨ e.isRateLimitError = true ∨
        ∃ s : Int, status_from_exc e = some s ∧ (s = 429 ∨ (500 ≤ s ∧ s ≤ 599)) := by
  unfold is_retryable
  rcases hc : e.isAPIConnectionError <;> rcases hr : e.isRateLimitError <;>
    simp only [Bool.false_or, Bool.true_or, Bool.or_self, if_true, if_false] <;>
    simp [hc, hr]
  rcases hs : status_from_exc e with _ | s
  · simp
  · simp only [Option.some.injEq]
    constructor
    · intro h
      rcases Bool.or_eq_true_iff.mp h with h | h
      · exact ⟨s, rfl, Or.inl (eq_of_beq h)⟩
      · exact ⟨s, rfl, Or.inr ⟨of_decide_eq_true (Bool.and_eq_true_iff.mp h).1,
          of_decide_eq_true (Bool.and_eq_true_iff.mp h).2⟩⟩
    · rintro ⟨t, ht, h⟩
      cases ht
      rcases h with h | ⟨h1, h2⟩
      · simp [h]
      · simp [decide_eq_true h1, decide_eq_true h2]

/-- Claim C1: a backend that fails with a rate-limit error on exactly the
first N requests and succeeds on request N + 1 makes `ask_gpt` (called with a
query and no file, so no delete traffic) return the successful result with
exactly N + 1 requests issued, whenever the configured `max_retries` admits at
least N retries. -/
theorem ask_gpt_rate_limit_retries {α : Type} (N max_retries : Nat)
    (backend : Nat → Except OpenAIException α) (deleteOk : Nat → Bool)
    (delete_uploaded_file : Bool) (v : α)
    (hfail : ∀ i, i < N → ∃ e, backend i = .error e ∧ e.isRateLimitError = true)
    (hsucc : backend N = .ok v)
    (hmax : N ≤ max_retries) :
    ask_gpt backend deleteOk max_retries true false delete_uploaded_file
      = (.ok v, N + 1, 0) := by
  unfold ask_gpt
  simp only [Bool.true_eq_false, false_and, if_false, if_neg]
  have := loop_rate_limit backend deleteOk max_retries delete_uploaded_file v
    N 0 0 0 (by simpa using hfail) (by simpa using hsucc) (by omega)
  simpa using this

/-- Witness for C1 with N = 2: two rate-limited requests, success on the
third, `max_retries` = 5. -/
theorem ask_gpt_rate_limit_retries_witness :
    ask_gpt rlBackend (fun _ => true) 5 true false true = (.ok 7, 3, 0) :=
  ask_gpt_rate_limit_retries 2 5 rlBackend (fun _ => true) true 7
    (fun i hi => ⟨rlExc, by interval_cases i <;> exact ⟨rfl, rfl⟩⟩)
    rfl (by omega)

/-- Claim C2: when `ask_gpt` stages a remote file handle (file present,
deletion enabled), the backend delete operation is invoked exactly once over
the whole call — whatever the backend does: success on any attempt, retry
exhaustion, or a non-retryable failure (first conjunct, with a delete
interface that succeeds); and the success or failure pattern of the delete
interface never alters the primary outcome (second conjunct). -/
theorem ask_gpt_deletes_once_and_delete_failure_harmless :
    (∀ (α : Type) (backend : Nat → Except OpenAIException α) (mr : Nat) (hq : Bool),
      (ask_gpt backend (fun _ => true) mr hq true true).2.2 = 1) ∧
    (∀ (α : Type) (backend : Nat → Except OpenAIException α)
        (dOk₁ dOk₂ : Nat → Bool) (mr : Nat) (hq hf dU : Bool),
      (ask_gpt backend dOk₁ mr hq hf dU).1 = (ask_gpt backend dOk₂ mr hq hf dU).1) := by
  constructor
  · intro α backend mr hq
    unfold ask_gpt
    simp only [and_false, if_false, if_true, if_neg, Bool.true_eq_false]
    simpa using loop_deletes_some_once backend mr 0 0 0
  · intro α backend dOk₁ dOk₂ mr hq hf dU
    unfold ask_gpt
    by_cases hg : hq = false ∧ hf = false
    · rw [if_pos hg, if_pos hg]
    · rw [if_neg hg, if_neg hg]
      exact loop_result_indep backend mr mr 0 0 (by omega) dOk₁ dOk₂ dU dU _ _ _ _

/-- Claim C4 (counterexample): on a backend that always fails non-retryably,
`ask_gpt` issues exactly one request and raises the terminal `RuntimeError`
wrapping the failure — but the number interpolated into the error message is
the retry counter 0, not the number of attempts made, which is 1. -/
theorem ask_gpt_nonretryable_names_retries_not_attempts :
    (ask_gpt fatalBackend (fun _ => true) 5 true false true).1
        = .runtimeError 0 fatalExc ∧
    (ask_gpt fatalBackend (fun _ => true) 5 true false true).2.1 = 1 ∧
    (0 : Nat) ≠ 1 := by
  refine ⟨?_, ?_, by omega⟩ <;>
  · unfold ask_gpt
    rw [if_neg (by simp)]
    rw [ask_gpt_loop.eq_def]
    have hb : fatalBackend 0 = .error fatalExc := rfl
    simp only [hb]
    rw [dif_neg (by intro hcon; exact absurd hcon.1 (by decide))]

/-- Claim C4 (amended): for every backend whose first request fails with a
non-retryable error, `ask_gpt` (called with a query and no file) issues
exactly one request and immediately raises the terminal error wrapping that
failure, naming the number of retries performed — zero, one less than the
number of attempts made. -/
theorem ask_gpt_nonretryable_single_attempt {α : Type}
    (backend : Nat → Except OpenAIException α) (deleteOk : Nat → Bool)
    (max_retries : Nat) (delete_uploaded_file : Bool) (e : OpenAIException)
    (hfail : backend 0 = .error e) (hnr : is_retryable e = false) :
    ask_gpt backend deleteOk max_retries true false delete_uploaded_file
      = (.runtimeError 0 e, 1, 0) := by
  unfold ask_gpt
  rw [if_neg (by simp)]
  rw [ask_gpt_loop.eq_def]
  simp only [hfail]
  rw [dif_neg (by intro hcon; rw [hnr] at hcon; exact absurd hcon.1 (by simp))]
  simp [cleanup]

/-- Witness for the amended C4 at a concrete non-retryable backend. -/
theorem ask_gpt_nonretryable_single_attempt_witness :
    ask_gpt fatalBackend (fun _ => true) 7 true false true
      = (.runtimeError 0 fatalExc, 1, 0) :=
  ask_gpt_nonretryable_single_attempt fatalBackend (fun _ => true) 7 true
    fatalExc rfl (by decide)

/-- Claim C5 (counterexample): with the source's default knobs — initial
backoff 1.0, cap 20.0, jitter 0.25 — and the permitted draw +0.25, the delay
slept at attempt 5 is 25, which exceeds the configured maximum backoff 20:
the jitter factor is applied after the `min` with `max_backoff`, so the cap
bounds only the pre-jitter base. -/
theorem backoff_delay_exceeds_max_backoff :
    (-(1/4 : ℚ) ≤ 1/4 ∧ (1/4 : ℚ) ≤ 1/4) ∧
    backoff_delay 1 20 5 (1/4) = 25 ∧
    ¬ backoff_delay 1 20 5 (1/4) ≤ 20 := by
  norm_num [backoff_delay, backoff_base]

/-- Claim C5 (amended): for every fixed jitter draw in the permitted band the
delay is monotonically non-decreasing in the attempt index (hence
non-decreasing in expectation, whatever the draw distribution), and the slept
delay never exceeds `max(0.1, max_backoff * (1 + jitter))` — a bound attained
above `max_backoff` itself when the draw is positive. -/
theorem backoff_delay_monotone_and_capped
    (ib mb j u : ℚ) (a b : Nat) (hib : 0 ≤ ib) (hmb : 0 ≤ mb)
    (hj1 : j ≤ 1) (hu₁ : -j ≤ u) (hu₂ : u ≤ j) (hab : a ≤ b) :
    backoff_delay ib mb a u ≤ backoff_delay ib mb b u ∧
    backoff_delay ib mb a u ≤ max (1/10) (mb * (1 + j)) := by
  have hu0 : (0 : ℚ) ≤ 1 + u := by linarith
  have hbase_nonneg : 0 ≤ backoff_base ib mb a := by
    have : (0 : ℚ) ≤ ib * 2 ^ a := mul_nonneg hib (by positivity)
    exact le_min hmb this
  constructor
  · have hbb : backoff_base ib mb a ≤ backoff_base ib mb b := by
      refine min_le_min le_rfl ?_
      exact mul_le_mul_of_nonneg_left
        (pow_le_pow_right₀ one_le_two hab) hib
    exact max_le_max le_rfl (mul_le_mul_of_nonneg_right hbb hu0)
  · refine max_le_max le_rfl ?_
    exact mul_le_mul (min_le_left _ _) (by linarith) hu0 hmb

/-- Witness for the amended C5 at the source's default knobs, attempts 2 and
3, draw +0.25. -/
theorem backoff_delay_monotone_and_capped_witness :
    backoff_delay 1 20 2 (1/4) ≤ backoff_delay 1 20 3 (1/4) ∧
    backoff_delay 1 20 2 (1/4) ≤ max (1/10) (20 * (1 + 1/4)) :=
  backoff_delay_monotone_and_capped 1 20 (1/4) (1/4) 2 3 (by norm_num)
    (by norm_num) (by norm_num) (by norm_num) (by norm_num) (by norm_num)

/-- Claim C7 (code-bug evidence): a request with the unrecognized file
"notes.xyz" is not rejected with a client-input error: the classifier's nested
return defeats the `if not ext` guard (leaving the 422 branch at lines 92-96
dead for this input), the request falls through every pipeline branch, and the
`ask_gpt` call raises `TypeError` on the unknown keyword `summary_model`,
which the blanket handler converts into an HTTP 500.  An archive upload
"archive.tar.gz" — a recognized category with no pipeline — reaches the same
500.  No backend call is attempted in either case, but the rejection is a
server error, never the claimed client-input error. -/
theorem ask_unsupported_category_server_error :
    ask (some "What is AI?") ModelName.gpt_4o_mini (some "notes.xyz") true
      = .serverError "ask_gpt() got an unexpected keyword argument: summary_model" ∧
    ask none ModelName.gpt_4o_mini (some "archive.tar.gz") true
      = .serverError "ask_gpt() got an unexpected keyword argument: summary_model" ∧
    ∀ st d, ask (some "What is AI?") ModelName.gpt_4o_mini (some "notes.xyz") true
      ≠ .httpError st d := by
  refine ⟨by decide, by decide, fun st d h => ?_⟩
  have he : ask (some "What is AI?") ModelName.gpt_4o_mini (some "notes.xyz") true
      = .serverError "ask_gpt() got an unexpected keyword argument: summary_model" := by
    decide
  rw [he] at h
  exact Dispatch.noConfusion h

/-- Claim C8 (code-bug evidence): a request carrying only the non-blank query
"What is AI?" and the valid general-purpose model gpt-4o-mini never reaches a
successful `ask_gpt` invocation: the call at lines 172-176 passes the keyword
`summary_model`, which `ask_gpt` does not accept, so Python raises `TypeError`
and the endpoint answers HTTP 500 instead of the claimed answer object. -/
theorem ask_text_only_server_error :
    ask (some "What is AI?") ModelName.gpt_4o_mini none false
      = .serverError "ask_gpt() got an unexpected keyword argument: summary_model" ∧
    ask (some "What is AI?") ModelName.gpt_4o_mini none false ≠ .gptCall := by
  decide

/-- Claim C10: every member of the `ModelName` enum satisfies
`_is_vision_model`, so the non-vision rejection branch for an image upload is
unreachable for any request whose model validates against the enum: with image
category and non-empty bytes the image pipeline is always the branch taken. -/
theorem vision_model_covers_enum :
    (∀ m : ModelName, is_vision_model m.value = true) ∧
    (∀ m : ModelName, ask_try true (CatVal.str "image") m = .imageCall) := by
  constructor
  · intro m; cases m <;> decide
  · intro m; cases m <;> decide

end MPGpt
